import Mathlib

/-!
Verification development for the `ab_glyph` ttf-parser facade
(`src/glyph/src/ttfp.rs`). The crate wraps an external table decoder
(`owned_ttf_parser::Face`), which is modelled here as an abstract
structure of query functions. Rust panics (`expect` / `unwrap`) are
modelled explicitly by the `PanicOr` result type, so that "fails
fatally" is distinguishable from "returns an error value".
Machine integers (`u8`, `u16`, `i16`) are modelled as `Nat` / `Int`;
the facade's `f32::from` conversions of such integers are exact, so
metric results are kept as exact integers.
-/

/-- Modelled from the spec: `GlyphId` is declared at the crate root, which is
not under `src/`; per section 3 it is an opaque unsigned integer identifying a
glyph within one font (a `u16` new-type in the crate). -/
structure GlyphId where
  id : Nat
deriving DecidableEq, Repr

/-- Modelled from the spec: `Point` is declared at the crate root, which is not
under `src/`; a 2D coordinate in font design units (section 3). -/
structure Point where
  x : Int
  y : Int
deriving DecidableEq, Repr

/-- Modelled from the spec: the `point` constructor function used by
`ttfp.rs` when building bounds rectangles. -/
def point (x y : Int) : Point := ⟨x, y⟩

/-- Modelled from the spec: `Rect` is declared at the crate root, which is not
under `src/`; an axis-aligned bounding box with `min` and `max` points
(section 3). -/
structure Rect where
  min : Point
  max : Point
deriving DecidableEq, Repr

/-- Modelled from the spec: `Curve` is declared at the crate root, which is not
under `src/`; one of Line, Quadratic or Cubic path segments (section 3). The
claims treat curves opaquely. -/
inductive Curve where
  | line : Point → Point → Curve
  | quad : Point → Point → Point → Curve
  | cubic : Point → Point → Point → Point → Curve
deriving DecidableEq, Repr

/-- Modelled from the spec: `Outline` is declared at the crate root, which is
not under `src/`; it owns a `bounds : Rect` and an ordered sequence of
`Curve` (section 3). -/
structure Outline where
  bounds : Rect
  curves : List Curve
deriving DecidableEq, Repr

/-- Modelled from the spec: `InvalidFont` is declared at the crate root, which
is not under `src/`; the single construction-time error kind (section 7). -/
structure InvalidFont where
deriving DecidableEq, Repr

/-- Result of a Rust computation that may abort the process. `panicked` models
an unrecoverable fault (`Option::unwrap` / `expect` on `None`); it is a
process abort, not an error value that a caller receives. -/
inductive PanicOr (α : Type) where
  | panicked : PanicOr α
  | ok : α → PanicOr α
deriving DecidableEq, Repr

/-- Bounding box as reported by the external decoder
(`owned_ttf_parser::Rect`, fields `x_min`, `y_min`, `x_max`, `y_max`,
each an `i16`). -/
structure TtfRect where
  x_min : Int
  y_min : Int
  x_max : Int
  y_max : Int
deriving DecidableEq, Repr

/-- One COLR layer as reported by the external decoder: the layer's own glyph
id and its palette-color index (both `u16`). -/
structure ColrLayer where
  glyph_id : Nat
  palette_index : Nat
deriving DecidableEq, Repr

/-- An RGBA color as reported by the external decoder's CPAL lookup: four
8-bit channels (each value below 256). -/
structure RgbaColor where
  r : Nat
  g : Nat
  b : Nat
  a : Nat
deriving DecidableEq, Repr

/-- One kerning subtable as seen by the external decoder: its horizontal and
variation flags and its per-pair lookup (`i16` kerning value when the pair is
covered). -/
structure KernSubtable where
  is_horizontal : Bool
  is_variable : Bool
  glyphs_kerning : Nat → Nat → Option Int

/-- Abstract model of the external table decoder (`owned_ttf_parser::Face`),
an out-of-scope collaborator per section 6 of the spec: each field is one of
the decoder queries the facade in `ttfp.rs` consumes. `outline_glyph`
returns the decoder-reported bounds together with the curve sequence the
decoder drives into the supplied outline builder. -/
structure Face where
  glyph_index : Char → Option Nat
  glyph_hor_advance : Nat → Option Nat
  glyph_hor_side_bearing : Nat → Option Int
  glyph_ver_advance : Nat → Option Nat
  glyph_ver_side_bearing : Nat → Option Int
  kerning_subtables : List KernSubtable
  colr_layers : Nat → Option (List ColrLayer)
  cpal_color : Nat → Nat → Option RgbaColor
  outline_glyph : Nat → Option (TtfRect × List Curve)
  number_of_glyphs : Nat

/-- Slice-backed font handle (`FontRef` in `ttfp.rs`): wraps a parsed face. -/
structure FontRef where
  face : Face

/-- Owned-buffer font handle (`FontVec` in `ttfp.rs`): wraps a parsed face. -/
structure FontVec where
  face : Face

/-- Raw font bytes supplied to construction. -/
abbrev ByteData : Type := List Nat

/-- Embeds `FontRef::try_from_slice_and_index`: parse the bytes with the
external decoder (`Face::from_slice`, abstracted as `parse`), mapping any
decoder error to `InvalidFont`. -/
def try_from_slice_and_index (parse : ByteData → Nat → Option Face)
    (data : ByteData) (index : Nat) : Except InvalidFont FontRef :=
  match parse data index with
  | none => .error ⟨⟩
  | some face => .ok ⟨face⟩

/-- Embeds `FontRef::try_from_slice`: construction at collection index 0. -/
def try_from_slice (parse : ByteData → Nat → Option Face)
    (data : ByteData) : Except InvalidFont FontRef :=
  try_from_slice_and_index parse data 0

/-- Embeds `FontVec::try_from_vec_and_index`: parse the owned bytes with the
external decoder (`OwnedFace::from_vec`, abstracted as `parse`), mapping any
decoder error to `InvalidFont`. -/
def try_from_vec_and_index (parse : ByteData → Nat → Option Face)
    (data : ByteData) (index : Nat) : Except InvalidFont FontVec :=
  match parse data index with
  | none => .error ⟨⟩
  | some face => .ok ⟨face⟩

/-- Embeds `FontVec::try_from_vec`: construction at collection index 0. -/
def try_from_vec (parse : ByteData → Nat → Option Face)
    (data : ByteData) : Except InvalidFont FontVec :=
  try_from_vec_and_index parse data 0

/-- Embeds `Font::glyph_id` from `ttfp.rs`: character-map lookup with
`unwrap_or(0)` fallback for unmapped characters. -/
def glyph_id (f : Face) (c : Char) : GlyphId :=
  GlyphId.mk ((f.glyph_index c).getD 0)

/-- Embeds `Font::h_advance_unscaled` from `ttfp.rs`: decoder lookup followed
by `expect`, which panics when the decoder reports no metric. The `f32::from`
of the `u16` advance is exact and kept as an integer. -/
def h_advance_unscaled (f : Face) (id : GlyphId) : PanicOr Int :=
  match f.glyph_hor_advance id.id with
  | some advance => .ok (Int.ofNat advance)
  | none => .panicked

/-- Embeds `Font::h_side_bearing_unscaled` from `ttfp.rs`: decoder lookup
followed by `expect`. -/
def h_side_bearing_unscaled (f : Face) (id : GlyphId) : PanicOr Int :=
  match f.glyph_hor_side_bearing id.id with
  | some v => .ok v
  | none => .panicked

/-- Embeds `Font::v_advance_unscaled` from `ttfp.rs`: decoder lookup followed
by `expect`. -/
def v_advance_unscaled (f : Face) (id : GlyphId) : PanicOr Int :=
  match f.glyph_ver_advance id.id with
  | some advance => .ok (Int.ofNat advance)
  | none => .panicked

/-- Embeds `Font::v_side_bearing_unscaled` from `ttfp.rs`: decoder lookup
followed by `expect`. -/
def v_side_bearing_unscaled (f : Face) (id : GlyphId) : PanicOr Int :=
  match f.glyph_ver_side_bearing id.id with
  | some v => .ok v
  | none => .panicked

/-- Embeds `Font::kern_unscaled` from `ttfp.rs`: filter the decoder's kerning
subtables to horizontal, non-variable ones, take the first pair match
(`find_map`), defaulting to 0. -/
def kern_unscaled (f : Face) (first second : GlyphId) : Int :=
  (((f.kerning_subtables.filter
        (fun st => st.is_horizontal && !st.is_variable)).findSome?
      (fun st => st.glyphs_kerning first.id second.id)).getD 0)

/-- Embeds `Font::relative_scale` from `ttfp.rs`: unconditionally 1. -/
def relative_scale (_f : Face) (_id : GlyphId) : Int := 1

/-- Embeds `Font::glyph_count` from `ttfp.rs`. -/
def glyph_count (f : Face) : Nat := f.number_of_glyphs

/-- Embeds `Font::has_color` from `ttfp.rs`: `colr_layers(id).is_some()`. -/
def has_color (f : Face) (id : GlyphId) : Bool :=
  (f.colr_layers id.id).isSome

/-- Embeds `Font::outline` from `ttfp.rs`: drive the decoder's outline
extraction, then package the curves with the decoder-reported bounds under
the vertical-flip convention `min = (x_min, y_max)`, `max = (x_max, y_min)`. -/
def outline (f : Face) (id : GlyphId) : Option Outline :=
  (f.outline_glyph id.id).map (fun rc =>
    { bounds :=
        { min := point rc.1.x_min rc.1.y_max
          max := point rc.1.x_max rc.1.y_min }
      curves := rc.2 })

/-- Embeds `u32::from_be_bytes([r, g, b, a])` as used by `color_outlines`:
big-endian packing, R in the most significant byte down to A in the least. -/
def pack_rgba (c : RgbaColor) : Nat :=
  ((c.r * 256 + c.g) * 256 + c.b) * 256 + c.a

/-- Embeds the per-layer body of `color_outlines` from `ttfp.rs`, applied to
each layer in layer-table order (the iterator `map` + `collect`): look the
layer's palette index up in palette 0 (`cpal_color(0, _)` then `unwrap`),
pack the color, obtain the layer glyph's outline (`unwrap`). `none` models
the panic of either `unwrap`; the process aborts at the first failing layer,
so no partial list is ever produced. -/
def resolve_layers (f : Face) : List ColrLayer → Option (List (Outline × Nat))
  | [] => some []
  | layer :: rest =>
    match f.cpal_color 0 layer.palette_index with
    | none => none
    | some color =>
      match outline f (GlyphId.mk layer.glyph_id) with
      | none => none
      | some o =>
        match resolve_layers f rest with
        | none => none
        | some tail => some ((o, pack_rgba color) :: tail)

/-- Embeds `Font::color_outlines` from `ttfp.rs`: `None` when the decoder
reports no color layers for the glyph; otherwise resolve every layer in
order, panicking (via the two `unwrap`s in `resolve_layers`) on any
unresolvable layer. -/
def color_outlines (f : Face) (id : GlyphId) :
    PanicOr (Option (List (Outline × Nat))) :=
  match f.colr_layers id.id with
  | none => .ok none
  | some layers =>
    match resolve_layers f layers with
    | none => .panicked
    | some xs => .ok (some xs)

/-- Specification-side description of `kern_unscaled` (section 4.4 of the
spec, stated in its own words): scan the kerning subtables in table order,
skipping vertical or variable ones; return the first matching pair's value,
or 0 when no horizontal non-variable subtable defines the pair. -/
def kern_specScan : List KernSubtable → Nat → Nat → Int
  | [], _, _ => 0
  | st :: rest, a, b =>
    if st.is_horizontal && !st.is_variable then
      match st.glyphs_kerning a b with
      | some v => v
      | none => kern_specScan rest a b
    else kern_specScan rest a b

/-- Concrete palette entry used to instantiate theorems: opaque red. -/
def redColor : RgbaColor := ⟨255, 0, 0, 255⟩

/-- Concrete palette entry used to instantiate theorems: opaque green. -/
def greenColor : RgbaColor := ⟨0, 255, 0, 255⟩

/-- Layer list of the test decoder's color glyph 5: two layers drawn with
palette entries 0 and 1. -/
def testColorLayers : List ColrLayer := [⟨1, 0⟩, ⟨2, 1⟩]

/-- Concrete decoder instance used to instantiate the theorems: two glyphs
with complete metrics, a character map sending only 's' (to id 56), color
layers on glyphs 5 (well-formed), 6 (layer glyph without outline) and 7
(layer with an unmapped palette index), and outlines for glyph ids 0 to 2. -/
def testFace : Face where
  glyph_index := fun c => if c = 's' then some 56 else none
  glyph_hor_advance := fun i => if i < 2 then some 10 else none
  glyph_hor_side_bearing := fun i => if i < 2 then some 1 else none
  glyph_ver_advance := fun i => if i < 2 then some 12 else none
  glyph_ver_side_bearing := fun i => if i < 2 then some 2 else none
  kerning_subtables := []
  colr_layers := fun i =>
    if i = 5 then some testColorLayers
    else if i = 6 then some [⟨3, 0⟩]
    else if i = 7 then some [⟨1, 7⟩]
    else none
  cpal_color := fun p c =>
    if p = 0 ∧ c = 0 then some redColor
    else if p = 0 ∧ c = 1 then some greenColor
    else none
  outline_glyph := fun i => if i ≤ 2 then some (⟨1, 2, 3, 4⟩, []) else none
  number_of_glyphs := 2

/-- Outline the test decoder produces for glyph ids 0 to 2 after the facade's
bounds flip. -/
def testOutline : Outline :=
  { bounds := { min := point 1 4, max := point 3 2 }, curves := [] }

/-- Resolved color layers of the test decoder's glyph 5. -/
def testColorResult : List (Outline × Nat) :=
  [(testOutline, 0xFF0000FF), (testOutline, 0x00FF00FF)]

/-- Kerning subtables used to instantiate the kerning theorem: a vertical
subtable covering the pair (1, 2) and a variable horizontal subtable covering
every pair. -/
def kernSubtables : List KernSubtable :=
  [⟨false, false, fun a b => if a = 1 ∧ b = 2 then some 5 else none⟩,
   ⟨true, true, fun _ _ => some 7⟩]

/-- Test decoder with the kerning subtables of `kernSubtables`. -/
def kernFace : Face := { testFace with kerning_subtables := kernSubtables }

/-- Decoder-construction function used to instantiate the construction
theorem: parses successfully only at collection index 0. -/
def testParse : ByteData → Nat → Option Face :=
  fun _ index => if index = 0 then some testFace else none

/-- Helper: a successful `resolve_layers` run produces one entry per layer, in
layer order, each carrying the palette-0 color of that layer packed big-endian
and the outline of that layer's own glyph. -/
theorem resolve_layers_sound (f : Face) :
    ∀ (layers : List ColrLayer) (xs : List (Outline × Nat)),
      resolve_layers f layers = some xs →
      xs.length = layers.length ∧
      ∀ k (h1 : k < layers.length) (h2 : k < xs.length),
        ∃ color,
          f.cpal_color 0 (layers.get ⟨k, h1⟩).palette_index = some color ∧
          outline f (GlyphId.mk (layers.get ⟨k, h1⟩).glyph_id) =
            some (xs.get ⟨k, h2⟩).1 ∧
          (xs.get ⟨k, h2⟩).2 = pack_rgba color := by
  intro layers
  induction layers with
  | nil =>
    intro xs h
    simp only [resolve_layers, Option.some.injEq] at h
    subst h
    refine ⟨rfl, ?_⟩
    intro k h1 _
    exact absurd h1 (Nat.not_lt_zero k)
  | cons layer rest ih =>
    intro xs h
    rw [resolve_layers] at h
    cases hc : f.cpal_color 0 layer.palette_index with
    | none => rw [hc] at h; exact Option.noConfusion h
    | some color =>
      rw [hc] at h
      cases ho : outline f (GlyphId.mk layer.glyph_id) with
      | none => rw [ho] at h; exact Option.noConfusion h
      | some o =>
        rw [ho] at h
        cases hr : resolve_layers f rest with
        | none => rw [hr] at h; exact Option.noConfusion h
        | some tail =>
          rw [hr] at h
          obtain ⟨hlen, hidx⟩ := ih tail hr
          injection h with h'
          subst h'
          refine ⟨by simp [hlen], ?_⟩
          intro k h1 h2
          cases k with
          | zero => exact ⟨color, hc, ho, rfl⟩
          | succ k =>
            exact hidx k (Nat.lt_of_succ_lt_succ h1) (Nat.lt_of_succ_lt_succ h2)

/-- Helper: resolving a layer list in which some layer has either no palette-0
color or no outline fails (models the panic of the corresponding `unwrap`). -/
theorem resolve_layers_fails (f : Face) :
    ∀ (layers : List ColrLayer) (l : ColrLayer), l ∈ layers →
      (f.cpal_color 0 l.palette_index = none ∨
        outline f (GlyphId.mk l.glyph_id) = none) →
      resolve_layers f layers = none := by
  intro layers
  induction layers with
  | nil => intro l hl _; exact absurd hl (List.not_mem_nil l)
  | cons layer rest ih =>
    intro l hl hfail
    rcases List.mem_cons.mp hl with heq | hmem
    · subst heq
      cases hc : f.cpal_color 0 l.palette_index with
      | none => simp [resolve_layers, hc]
      | some color =>
        rcases hfail with hcn | ho
        · rw [hcn] at hc; exact Option.noConfusion hc
        · simp [resolve_layers, hc, ho]
    · have hrest := ih l hmem hfail
      cases hc : f.cpal_color 0 layer.palette_index with
      | none => simp [resolve_layers, hc]
      | some color =>
        cases ho : outline f (GlyphId.mk layer.glyph_id) with
        | none => simp [resolve_layers, hc, ho]
        | some o => simp [resolve_layers, hc, ho, hrest]

/-- Helper: when the decoder reports layers and `color_outlines` returns
without panicking, the returned list is exactly the `resolve_layers` run. -/
theorem color_outlines_ok_resolve (f : Face) (id : GlyphId)
    (layers : List ColrLayer) (result : List (Outline × Nat))
    (hl : f.colr_layers id.id = some layers)
    (hr : color_outlines f id = PanicOr.ok (some result)) :
    resolve_layers f layers = some result := by
  cases hres : resolve_layers f layers with
  | none =>
    have hpan : color_outlines f id = PanicOr.panicked := by
      simp [color_outlines, hl, hres]
    rw [hpan] at hr
    exact PanicOr.noConfusion hr
  | some xs =>
    have hok : color_outlines f id = PanicOr.ok (some xs) := by
      simp [color_outlines, hl, hres]
    rw [hok] at hr
    simp only [PanicOr.ok.injEq, Option.some.injEq] at hr
    rw [hr]

/-- Helper: the source's filter-then-first-match kerning scan agrees with the
direct spec-side scan over the same subtable list. -/
theorem kern_filter_eq_specScan (a b : Nat) :
    ∀ l : List KernSubtable,
      ((l.filter (fun st => st.is_horizontal && !st.is_variable)).findSome?
        (fun st => st.glyphs_kerning a b)).getD 0 = kern_specScan l a b := by
  intro l
  induction l with
  | nil => rfl
  | cons st rest ih =>
    by_cases hp : (st.is_horizontal && !st.is_variable) = true
    · cases hg : st.glyphs_kerning a b with
      | some v =>
        simp [List.filter_cons, hp, List.findSome?_cons, hg, kern_specScan]
      | none =>
        simp [List.filter_cons, hp, List.findSome?_cons, hg, kern_specScan, ih]
    · simp [List.filter_cons, hp, kern_specScan, ih]

/-- Helper: the spec-side kerning scan yields 0 when no horizontal
non-variable subtable covers the pair. -/
theorem kern_specScan_eq_zero (a b : Nat) :
    ∀ l : List KernSubtable,
      (∀ st ∈ l, st.is_horizontal = true → st.is_variable = false →
        st.glyphs_kerning a b = none) →
      kern_specScan l a b = 0 := by
  intro l
  induction l with
  | nil => intro _; rfl
  | cons st rest ih =>
    intro hall
    have hrest : ∀ s ∈ rest, s.is_horizontal = true → s.is_variable = false →
        s.glyphs_kerning a b = none :=
      fun s hs => hall s (List.mem_cons_of_mem st hs)
    by_cases hp : (st.is_horizontal && !st.is_variable) = true
    · obtain ⟨hh, hv⟩ := Bool.and_eq_true_iff.mp hp
      have hvf : st.is_variable = false := by
        revert hv; cases st.is_variable <;> simp
      have hnone := hall st (List.mem_cons_self st rest) hh hvf
      simp [kern_specScan, hp, hnone, ih hrest]
    · simp [kern_specScan, hp, ih hrest]

/-- C1: whenever `color_outlines` returns (does not panic), `has_color id`
equals the `is_some` of the value `color_outlines` returned. -/
theorem c1_has_color_iff_color_outlines_isSome (f : Face) (id : GlyphId)
    (r : Option (List (Outline × Nat)))
    (h : color_outlines f id = PanicOr.ok r) :
    has_color f id = r.isSome := by
  cases hc : f.colr_layers id.id with
  | none =>
    have hok : color_outlines f id = PanicOr.ok none := by
      simp [color_outlines, hc]
    rw [hok] at h
    simp only [PanicOr.ok.injEq] at h
    subst h
    simp [has_color, hc]
  | some layers =>
    cases hres : resolve_layers f layers with
    | none =>
      have hpan : color_outlines f id = PanicOr.panicked := by
        simp [color_outlines, hc, hres]
      rw [hpan] at h
      exact PanicOr.noConfusion h
    | some xs =>
      have hok : color_outlines f id = PanicOr.ok (some xs) := by
        simp [color_outlines, hc, hres]
      rw [hok] at h
      simp only [PanicOr.ok.injEq] at h
      subst h
      simp [has_color, hc]

/-- Witness for C1 at the test decoder's glyph 0, which has no color layers. -/
theorem c1_witness :
    has_color testFace (GlyphId.mk 0) =
      (none : Option (List (Outline × Nat))).isSome :=
  c1_has_color_iff_color_outlines_isSome testFace (GlyphId.mk 0) none rfl

/-- C2: when the decoder reports bounds and curves for a glyph, `outline`
returns those curves with the bounds flipped vertically: min is
(x_min, y_max) and max is (x_max, y_min). -/
theorem c2_outline_flips_vertical_bounds (f : Face) (id : GlyphId)
    (r : TtfRect) (cs : List Curve)
    (h : f.outline_glyph id.id = some (r, cs)) :
    outline f id = some
      { bounds := { min := point r.x_min r.y_max, max := point r.x_max r.y_min }
        curves := cs } := by
  simp [outline, h]

/-- Witness for C2 at the test decoder's glyph 0 with reported bounds
x_min 1, y_min 2, x_max 3, y_max 4. -/
theorem c2_witness :
    outline testFace (GlyphId.mk 0) = some
      { bounds := { min := point 1 4, max := point 3 2 }, curves := [] } :=
  c2_outline_flips_vertical_bounds testFace (GlyphId.mk 0) ⟨1, 2, 3, 4⟩ [] rfl

/-- C3: `kern_unscaled` scans only horizontal non-variable subtables in table
order and returns the first match (it agrees with the direct spec-side scan);
it returns 0 whenever no horizontal non-variable subtable covers the pair,
whatever vertical or variable subtables contain, and never sums values. -/
theorem c3_kern_first_match_horizontal_nonvariable (f : Face) (a b : GlyphId) :
    kern_unscaled f a b = kern_specScan f.kerning_subtables a.id b.id ∧
    ((∀ st ∈ f.kerning_subtables, st.is_horizontal = true →
        st.is_variable = false → st.glyphs_kerning a.id b.id = none) →
      kern_unscaled f a b = 0) := by
  have h1 : kern_unscaled f a b = kern_specScan f.kerning_subtables a.id b.id :=
    kern_filter_eq_specScan a.id b.id f.kerning_subtables
  exact ⟨h1, fun hall =>
    h1.trans (kern_specScan_eq_zero a.id b.id f.kerning_subtables hall)⟩

/-- Witness for C3: the test decoder's pair (1, 2) is covered by a vertical
subtable and by a variable horizontal subtable, yet the kerning is 0. -/
theorem c3_witness :
    kern_unscaled kernFace (GlyphId.mk 1) (GlyphId.mk 2) = 0 := by
  refine (c3_kern_first_match_horizontal_nonvariable kernFace
    (GlyphId.mk 1) (GlyphId.mk 2)).2 ?_
  intro st hst h1 h2
  have heq : kernFace.kerning_subtables = kernSubtables := rfl
  rw [heq] at hst
  rcases List.mem_cons.mp hst with h | h
  · rw [h] at h1
    exact absurd h1 (by decide)
  · rcases List.mem_cons.mp h with h' | h'
    · rw [h'] at h2
      exact absurd h2 (by decide)
    · exact absurd h' (List.not_mem_nil st)

/-- C4: for a glyph id below `glyph_count` (given the decoder supplies all
four metrics for in-range ids), the advance and side-bearing queries return a
value; for an id whose metric the decoder does not supply, each query ends in
a panic, an unrecoverable fault rather than a returned or propagated error
value. -/
theorem c4_metrics_total_on_valid_fatal_on_invalid (f : Face) (id : GlyphId)
    (hcomplete : id.id < glyph_count f →
      (f.glyph_hor_advance id.id).isSome ∧ (f.glyph_ver_advance id.id).isSome ∧
      (f.glyph_hor_side_bearing id.id).isSome ∧
      (f.glyph_ver_side_bearing id.id).isSome) :
    (id.id < glyph_count f →
      (∃ v, h_advance_unscaled f id = PanicOr.ok v) ∧
      (∃ v, v_advance_unscaled f id = PanicOr.ok v) ∧
      (∃ v, h_side_bearing_unscaled f id = PanicOr.ok v) ∧
      (∃ v, v_side_bearing_unscaled f id = PanicOr.ok v)) ∧
    (f.glyph_hor_advance id.id = none →
      h_advance_unscaled f id = PanicOr.panicked) ∧
    (f.glyph_ver_advance id.id = none →
      v_advance_unscaled f id = PanicOr.panicked) ∧
    (f.glyph_hor_side_bearing id.id = none →
      h_side_bearing_unscaled f id = PanicOr.panicked) ∧
    (f.glyph_ver_side_bearing id.id = none →
      v_side_bearing_unscaled f id = PanicOr.panicked) := by
  refine ⟨?_, ?_, ?_, ?_, ?_⟩
  · intro hlt
    obtain ⟨h1, h2, h3, h4⟩ := hcomplete hlt
    refine ⟨?_, ?_, ?_, ?_⟩
    · cases hx : f.glyph_hor_advance id.id with
      | none => rw [hx] at h1; simp at h1
      | some v => exact ⟨Int.ofNat v, by simp [h_advance_unscaled, hx]⟩
    · cases hx : f.glyph_ver_advance id.id with
      | none => rw [hx] at h2; simp at h2
      | some v => exact ⟨Int.ofNat v, by simp [v_advance_unscaled, hx]⟩
    · cases hx : f.glyph_hor_side_bearing id.id with
      | none => rw [hx] at h3; simp at h3
      | some v => exact ⟨v, by simp [h_side_bearing_unscaled, hx]⟩
    · cases hx : f.glyph_ver_side_bearing id.id with
      | none => rw [hx] at h4; simp at h4
      | some v => exact ⟨v, by simp [v_side_bearing_unscaled, hx]⟩
  · intro hx; simp [h_advance_unscaled, hx]
  · intro hx; simp [v_advance_unscaled, hx]
  · intro hx; simp [h_side_bearing_unscaled, hx]
  · intro hx; simp [v_side_bearing_unscaled, hx]

/-- Witness for C4: the test decoder's glyph 0 is in range with full metrics;
glyph 9 has no metrics and the query ends in a panic. -/
theorem c4_witness :
    h_advance_unscaled testFace (GlyphId.mk 0) ≠ PanicOr.panicked ∧
    v_advance_unscaled testFace (GlyphId.mk 9) = PanicOr.panicked := by
  constructor
  · obtain ⟨v, hv⟩ :=
      ((c4_metrics_total_on_valid_fatal_on_invalid testFace (GlyphId.mk 0)
        (by decide)).1 (by decide)).1
    rw [hv]
    intro hcon
    exact PanicOr.noConfusion hcon
  · exact (c4_metrics_total_on_valid_fatal_on_invalid testFace (GlyphId.mk 9)
      (by decide)).2.2.1 rfl

/-- C5: `glyph_id` returns the character map's glyph id for mapped characters
and GlyphId 0 for unmapped ones; it is a total function, hence never fails. -/
theorem c5_glyph_id_charmap_with_notdef_fallback (f : Face) (c : Char) :
    (∀ i, f.glyph_index c = some i → glyph_id f c = GlyphId.mk i) ∧
    (f.glyph_index c = none → glyph_id f c = GlyphId.mk 0) := by
  constructor
  · intro i h; simp [glyph_id, h]
  · intro h; simp [glyph_id, h]

/-- Witness for C5: the test character map sends 's' to 56 and has no entry
for 'x'. -/
theorem c5_witness :
    glyph_id testFace 's' = GlyphId.mk 56 ∧
    glyph_id testFace 'x' = GlyphId.mk 0 :=
  ⟨(c5_glyph_id_charmap_with_notdef_fallback testFace 's').1 56 (by decide),
   (c5_glyph_id_charmap_with_notdef_fallback testFace 'x').2 (by decide)⟩

/-- C6: every color returned by `color_outlines` is the palette-0 lookup of
that layer's palette index (palette selection is fixed at 0) packed as one
32-bit big-endian integer R,G,B,A; in particular (255,0,0,255) packs to
0xFF0000FF and (0,255,0,255) packs to 0x00FF00FF. -/
theorem c6_palette0_bigendian_packing (f : Face) (id : GlyphId)
    (layers : List ColrLayer) (result : List (Outline × Nat))
    (hl : f.colr_layers id.id = some layers)
    (hr : color_outlines f id = PanicOr.ok (some result)) :
    (∀ k (h1 : k < layers.length) (h2 : k < result.length),
      ∃ color,
        f.cpal_color 0 (layers.get ⟨k, h1⟩).palette_index = some color ∧
        (result.get ⟨k, h2⟩).2 = pack_rgba color) ∧
    pack_rgba ⟨255, 0, 0, 255⟩ = 0xFF0000FF ∧
    pack_rgba ⟨0, 255, 0, 255⟩ = 0x00FF00FF := by
  have hres := color_outlines_ok_resolve f id layers result hl hr
  obtain ⟨hlen, hidx⟩ := resolve_layers_sound f layers result hres
  refine ⟨?_, by decide, by decide⟩
  intro k h1 h2
  obtain ⟨color, hc, _, hpack⟩ := hidx k h1 h2
  exact ⟨color, hc, hpack⟩

/-- Witness for C6: the two packed constants of the spec's scenario, obtained
through the theorem at the test decoder's glyph 5. -/
theorem c6_witness :
    pack_rgba ⟨255, 0, 0, 255⟩ = 0xFF0000FF ∧
    pack_rgba ⟨0, 255, 0, 255⟩ = 0x00FF00FF :=
  (c6_palette0_bigendian_packing testFace (GlyphId.mk 5) testColorLayers
    testColorResult rfl rfl).2

/-- C7: a non-panicking `Some` result of `color_outlines` has exactly one
entry per layer of the decoder's layer table for that glyph, in the same
order: the k-th entry's outline is the outline of the k-th layer's glyph. -/
theorem c7_layer_order_and_count (f : Face) (id : GlyphId)
    (layers : List ColrLayer) (result : List (Outline × Nat))
    (hl : f.colr_layers id.id = some layers)
    (hr : color_outlines f id = PanicOr.ok (some result)) :
    result.length = layers.length ∧
    ∀ k (h1 : k < layers.length) (h2 : k < result.length),
      outline f (GlyphId.mk (layers.get ⟨k, h1⟩).glyph_id) =
        some (result.get ⟨k, h2⟩).1 := by
  have hres := color_outlines_ok_resolve f id layers result hl hr
  obtain ⟨hlen, hidx⟩ := resolve_layers_sound f layers result hres
  refine ⟨hlen, ?_⟩
  intro k h1 h2
  obtain ⟨color, _, ho, _⟩ := hidx k h1 h2
  exact ho

/-- Witness for C7: the test decoder's glyph 5 resolves to as many pairs as
its layer table reports. -/
theorem c7_witness : testColorResult.length = testColorLayers.length :=
  (c7_layer_order_and_count testFace (GlyphId.mk 5) testColorLayers
    testColorResult rfl rfl).1

/-- C8: when some layer's own glyph produces no outline, `color_outlines`
neither skips the layer nor returns a recoverable value: it panics. -/
theorem c8_panics_on_unresolvable_layer_outline (f : Face) (id : GlyphId)
    (layers : List ColrLayer) (l : ColrLayer)
    (hl : f.colr_layers id.id = some layers) (hmem : l ∈ layers)
    (ho : outline f (GlyphId.mk l.glyph_id) = none) :
    color_outlines f id = PanicOr.panicked := by
  have hfail := resolve_layers_fails f layers l hmem (Or.inr ho)
  simp [color_outlines, hl, hfail]

/-- Witness for C8: the test decoder's glyph 6 has a layer whose glyph 3 has
no outline; resolution panics. -/
theorem c8_witness :
    color_outlines testFace (GlyphId.mk 6) = PanicOr.panicked :=
  c8_panics_on_unresolvable_layer_outline testFace (GlyphId.mk 6)
    [⟨3, 0⟩] ⟨3, 0⟩ rfl (List.mem_singleton.mpr rfl) rfl

/-- C9: construction (slice or owned buffer, with or without a collection
index) fails with `InvalidFont` exactly when the external decoder cannot
parse the bytes at the given index, succeeds wrapping the parsed face
otherwise, and the plain constructors are the index-0 instances. -/
theorem c9_construction_sole_fallible_entry
    (parse : ByteData → Nat → Option Face) (data : ByteData) (index : Nat) :
    (try_from_slice_and_index parse data index = Except.error ⟨⟩ ↔
      parse data index = none) ∧
    (∀ face, try_from_slice_and_index parse data index = Except.ok ⟨face⟩ ↔
      parse data index = some face) ∧
    (try_from_vec_and_index parse data index = Except.error ⟨⟩ ↔
      parse data index = none) ∧
    (∀ face, try_from_vec_and_index parse data index = Except.ok ⟨face⟩ ↔
      parse data index = some face) ∧
    try_from_slice parse data = try_from_slice_and_index parse data 0 ∧
    try_from_vec parse data = try_from_vec_and_index parse data 0 := by
  cases hp : parse data index with
  | none =>
    refine ⟨?_, ?_, ?_, ?_, rfl, rfl⟩ <;>
      simp [try_from_slice_and_index, try_from_vec_and_index, hp]
  | some face0 =>
    refine ⟨?_, ?_, ?_, ?_, rfl, rfl⟩ <;>
      simp [try_from_slice_and_index, try_from_vec_and_index, hp]

/-- Witness for C9: the test parse function fails at collection index 1 and
succeeds at index 0. -/
theorem c9_witness :
    try_from_slice_and_index testParse [] 1 = Except.error ⟨⟩ ∧
    try_from_vec_and_index testParse [] 0 = Except.ok ⟨testFace⟩ :=
  ⟨(c9_construction_sole_fallible_entry testParse [] 1).1.mpr rfl,
   ((c9_construction_sole_fallible_entry testParse [] 0).2.2.2.1 testFace).mpr
     rfl⟩

/-- C10: when palette 0 has no color at some layer's palette index,
`color_outlines` panics rather than returning `None` or skipping the layer. -/
theorem c10_panics_on_missing_palette_entry (f : Face) (id : GlyphId)
    (layers : List ColrLayer) (l : ColrLayer)
    (hl : f.colr_layers id.id = some layers) (hmem : l ∈ layers)
    (hc : f.cpal_color 0 l.palette_index = none) :
    color_outlines f id = PanicOr.panicked := by
  have hfail := resolve_layers_fails f layers l hmem (Or.inl hc)
  simp [color_outlines, hl, hfail]

/-- Witness for C10: the test decoder's glyph 7 has a layer with palette
index 7, which palette 0 does not define; resolution panics. -/
theorem c10_witness :
    color_outlines testFace (GlyphId.mk 7) = PanicOr.panicked :=
  c10_panics_on_missing_palette_entry testFace (GlyphId.mk 7)
    [⟨1, 7⟩] ⟨1, 7⟩ rfl (List.mem_singleton.mpr rfl) rfl
